import Mathlib

/-!
Shallow embedding of src/Notionsync.py (NotionDatabaseSync, DatabaseConnector
variants and main) and proofs of the specified properties.

Modelling conventions:
- A Python dict record is an association list `List (String × Option String)`.
  A value `none` stands for Python `None`; `dict.get` merges an absent key and
  a `None` value, which `pyGet` reproduces with `Option.join`. Field values
  are modelled as strings (`str(value)` of the script is the identity here).
- Python truthiness of a retrieved optional string (used for `if not uid` and
  `if existing_page_id`) is `pyTruthy`: `None` and the empty string are falsy.
- HTTP effects are an explicit environment: `RemoteEnv` maps each remote
  operation to `Except String` results (an `Except.error` is a raised
  requests exception), and the remote calls a run performs are collected in
  a `List RemoteCall` trace.
-/

set_option autoImplicit false

namespace Notionsync

/-- Record as fetched from a backend: an association list from field name to
an optional string value (`none` is Python `None`). -/
abbrev Record := List (String × Option String)

/-- Embeds Python `data.get(key)`: `none` when the key is absent or when the
stored value is `None`. -/
def pyGet (data : Record) (k : String) : Option String :=
  (List.lookup k data).join

/-- Python truthiness of an optional string: `None` and `""` are falsy. -/
def pyTruthy : Option String → Bool
  | none => false
  | some s => s != ""

/-- Value kinds of the property mapping table in `_format_properties`. -/
inductive PropKind
  | title
  | richText
  | select
  | date
deriving DecidableEq, Repr

/-- Formatted Notion property value, one constructor per serialization shape:
`title [text.content]`, `rich_text [text.content]`, `select.name`,
`date.start`. -/
inductive PropValue
  | title (content : String)
  | richText (content : String)
  | select (name : String)
  | date (start : String)
deriving DecidableEq, Repr

/-- The fixed property mapping table of `_format_properties`
(lines 97-107 of src/Notionsync.py), in source order. -/
def property_mapping : List (String × String × PropKind) :=
  [("Name", "name", .title),
   ("UID", "uid", .richText),
   ("Status", "status", .select),
   ("Reviewer Name", "reviewer_name", .richText),
   ("Review Date", "review_date", .date),
   ("Next Follow Up", "next_follow_up", .date),
   ("Date Added", "date_added", .date),
   ("Platform", "platform", .select),
   ("Socials", "socials", .richText)]

/-- One loop iteration of `_format_properties`: skip when the value is
`None`/absent, otherwise serialize by kind; a date kind additionally skips
falsy (empty) values. -/
def formatStep (data : Record) (props : List (String × PropValue))
    (e : String × String × PropKind) : List (String × PropValue) :=
  match e with
  | (np, dk, pt) =>
    match pyGet data dk with
    | none => props
    | some v =>
      match pt with
      | .title => props ++ [(np, .title v)]
      | .richText => props ++ [(np, .richText v)]
      | .select => props ++ [(np, .select v)]
      | .date => if v == "" then props else props ++ [(np, .date v)]

/-- Embeds `NotionDatabaseSync._format_properties` (lines 84-132): fold the
mapping table over an initially empty property dict (modelled as an ordered
association list, faithful to insertion order). -/
def _format_properties (data : Record) : List (String × PropValue) :=
  property_mapping.foldl (formatStep data) []

/-- Serialization shape chosen by `_format_properties` for each value kind. -/
def mkProp : PropKind → String → PropValue
  | .title, v => .title v
  | .richText, v => .richText v
  | .select, v => .select v
  | .date, v => .date v

lemma mem_formatStep (data : Record) (acc : List (String × PropValue))
    (e : String × String × PropKind) (p : String × PropValue) :
    p ∈ formatStep data acc e ↔
      p ∈ acc ∨ ∃ v, pyGet data e.2.1 = some v ∧
        (e.2.2 = PropKind.date → v ≠ "") ∧ p = (e.1, mkProp e.2.2 v) := by
  obtain ⟨np, dk, pt⟩ := e
  simp only [formatStep]
  cases h : pyGet data dk with
  | none => simp [h]
  | some v =>
    cases pt with
    | title => simp [h, mkProp]
    | richText => simp [h, mkProp]
    | select => simp [h, mkProp]
    | date =>
      by_cases hv : v = ""
      · subst hv
        simp [h, mkProp]
      · simp [h, hv, mkProp]

lemma mem_foldl_formatStep (data : Record) (m : List (String × String × PropKind))
    (acc : List (String × PropValue)) (p : String × PropValue) :
    p ∈ m.foldl (formatStep data) acc ↔
      p ∈ acc ∨ ∃ e ∈ m, ∃ v, pyGet data e.2.1 = some v ∧
        (e.2.2 = PropKind.date → v ≠ "") ∧ p = (e.1, mkProp e.2.2 v) := by
  induction m generalizing acc with
  | nil => simp
  | cons e m ih =>
    rw [List.foldl_cons, ih, mem_formatStep]
    constructor
    · rintro ((hp | ⟨v, hv, hg, rfl⟩) | ⟨e', he', v, hv, hg, rfl⟩)
      · exact Or.inl hp
      · exact Or.inr ⟨e, List.mem_cons_self e m, v, hv, hg, rfl⟩
      · exact Or.inr ⟨e', List.mem_cons_of_mem e he', v, hv, hg, rfl⟩
    · rintro (hp | ⟨e', he', v, hv, hg, rfl⟩)
      · exact Or.inl (Or.inl hp)
      · rcases List.mem_cons.mp he' with rfl | he'
        · exact Or.inl (Or.inr ⟨v, hv, hg, rfl⟩)
        · exact Or.inr ⟨e', he', v, hv, hg, rfl⟩

/-- Characterization of the formatter output: an entry appears iff some
mapping-table row has a non-null record value (non-empty when date-kind) that
serializes to it. -/
lemma mem_format_properties (data : Record) (p : String × PropValue) :
    p ∈ _format_properties data ↔
      ∃ e ∈ property_mapping, ∃ v, pyGet data e.2.1 = some v ∧
        (e.2.2 = PropKind.date → v ≠ "") ∧ p = (e.1, mkProp e.2.2 v) := by
  rw [_format_properties, mem_foldl_formatStep]
  simp

/-- Claim C2: the property formatter on the single-field record
`{status: "Active"}` yields exactly `{"Status": {"select": {"name": "Active"}}}`,
and on `{uid: "123"}` yields exactly
`{"UID": {"rich_text": [{"text": {"content": "123"}}]}}`. -/
theorem format_properties_examples :
    _format_properties [("status", some "Active")]
      = [("Status", PropValue.select "Active")] ∧
    _format_properties [("uid", some "123")]
      = [("UID", PropValue.richText "123")] := by
  constructor <;> rfl

/-- Remote property names are pairwise distinct across the mapping table, so
a table row is determined by its remote property name. -/
lemma mapping_name_inj :
    ∀ e1 ∈ property_mapping, ∀ e2 ∈ property_mapping, e1.1 = e2.1 → e1 = e2 := by
  decide

/-- Claim C3: for every record, the formatter omits every mapped remote
property whose record field is null or absent, and for a date-kind field it
additionally omits the property when the value is empty, emitting
`date.start` exactly for non-empty values. -/
theorem format_properties_omission (data : Record) (np dk : String) (pt : PropKind)
    (hmem : (np, dk, pt) ∈ property_mapping) :
    (pyGet data dk = none → ∀ pv, (np, pv) ∉ _format_properties data) ∧
    (pt = PropKind.date →
      (pyGet data dk = some "" → ∀ pv, (np, pv) ∉ _format_properties data) ∧
      (∀ v, pyGet data dk = some v → v ≠ "" →
        (np, PropValue.date v) ∈ _format_properties data)) := by
  refine ⟨?_, fun hdate => ⟨?_, ?_⟩⟩
  · intro hnone pv hpv
    rw [mem_format_properties] at hpv
    obtain ⟨e, he, v, hv, hg, hp⟩ := hpv
    have hnp : e.1 = np := (congrArg Prod.fst hp).symm
    have heq : e = (np, dk, pt) :=
      mapping_name_inj e he (np, dk, pt) hmem hnp
    have hv2 : pyGet data dk = some v := by rw [heq] at hv; exact hv
    rw [hnone] at hv2
    exact Option.noConfusion hv2
  · intro hempty pv hpv
    rw [mem_format_properties] at hpv
    obtain ⟨e, he, v, hv, hg, hp⟩ := hpv
    have hnp : e.1 = np := (congrArg Prod.fst hp).symm
    have heq : e = (np, dk, pt) :=
      mapping_name_inj e he (np, dk, pt) hmem hnp
    have hv2 : pyGet data dk = some v := by rw [heq] at hv; exact hv
    have hg2 : pt = PropKind.date → v ≠ "" := by rw [heq] at hg; exact hg
    rw [hempty] at hv2
    exact hg2 hdate (Option.some.inj hv2).symm
  · intro v hv hne
    rw [mem_format_properties]
    exact ⟨(np, dk, pt), hmem, v, hv, fun _ => hne, by rw [hdate]; rfl⟩

/-- Witness for `format_properties_omission` at the date-kind row
`("Review Date", "review_date")` and a concrete record. -/
theorem format_properties_omission_witness :
    (("Review Date", "review_date", PropKind.date) ∈ property_mapping) ∧
    ((pyGet [(("name" : String), (none : Option String)),
        ("review_date", some "2024-01-01")] "review_date" = none →
      ∀ pv, ("Review Date", pv) ∉ _format_properties
        [("name", none), ("review_date", some "2024-01-01")]) ∧
     (PropKind.date = PropKind.date →
      (pyGet [("name", none), ("review_date", some "2024-01-01")] "review_date"
          = some "" →
        ∀ pv, ("Review Date", pv) ∉ _format_properties
          [("name", none), ("review_date", some "2024-01-01")]) ∧
      (∀ v, pyGet [("name", none), ("review_date", some "2024-01-01")]
          "review_date" = some v → v ≠ "" →
        ("Review Date", PropValue.date v) ∈ _format_properties
          [("name", none), ("review_date", some "2024-01-01")]))) :=
  ⟨by decide,
   format_properties_omission
     [("name", none), ("review_date", some "2024-01-01")]
     "Review Date" "review_date" PropKind.date (by decide)⟩

/-- Allow-listed mutable fields of `update_page` (lines 182-183). -/
def update_fields : List String :=
  ["status", "platform", "socials", "reviewer_name", "review_date",
   "next_follow_up"]

/-- One loop iteration of `update_page`: when the field is present in the
record (Python `field in data`, value possibly `None`), format the
single-field dict and merge the result into the accumulated properties. -/
def updateStep (data : Record) (props : List (String × PropValue))
    (f : String) : List (String × PropValue) :=
  match List.lookup f data with
  | some rv => props ++ _format_properties [(f, rv)]
  | none => props

/-- Properties part of the payload built by `update_page` (lines 182-191). -/
def update_properties (data : Record) : List (String × PropValue) :=
  update_fields.foldl (updateStep data) []

/-- Request issued by `NotionDatabaseSync.update_page` (lines 168-191): the
page id addressed in the URL and the `properties` payload. -/
structure UpdateRequest where
  page_id : String
  properties : List (String × PropValue)
deriving DecidableEq, Repr

/-- Embeds `NotionDatabaseSync.update_page` up to the HTTP call: the request
it sends for a given page id and record. -/
def update_page (page_id : String) (data : Record) : UpdateRequest :=
  ⟨page_id, update_properties data⟩

lemma mem_foldl_updateStep (data : Record) (l : List String)
    (acc : List (String × PropValue)) (p : String × PropValue) :
    p ∈ l.foldl (updateStep data) acc ↔
      p ∈ acc ∨ ∃ f ∈ l, ∃ rv, List.lookup f data = some rv ∧
        p ∈ _format_properties [(f, rv)] := by
  induction l generalizing acc with
  | nil => simp
  | cons f l ih =>
    rw [List.foldl_cons, ih]
    have hstep : p ∈ updateStep data acc f ↔
        p ∈ acc ∨ ∃ rv, List.lookup f data = some rv ∧
          p ∈ _format_properties [(f, rv)] := by
      unfold updateStep
      cases h : List.lookup f data with
      | none => simp [h]
      | some rv => simp [h]
    rw [hstep]
    constructor
    · rintro ((hp | ⟨rv, hrv, hp⟩) | ⟨f', hf', rv, hrv, hp⟩)
      · exact Or.inl hp
      · exact Or.inr ⟨f, List.mem_cons_self f l, rv, hrv, hp⟩
      · exact Or.inr ⟨f', List.mem_cons_of_mem f hf', rv, hrv, hp⟩
    · rintro (hp | ⟨f', hf', rv, hrv, hp⟩)
      · exact Or.inl (Or.inl hp)
      · rcases List.mem_cons.mp hf' with rfl | hf'
        · exact Or.inl (Or.inr ⟨rv, hrv, hp⟩)
        · exact Or.inr ⟨f', hf', rv, hrv, hp⟩

lemma pyGet_singleton (f k : String) (rv : Option String) :
    pyGet [(f, rv)] k = if k = f then rv else none := by
  unfold pyGet
  rw [List.lookup_cons]
  by_cases h : k = f
  · subst h
    simp
  · have hb : (k == f) = false := beq_eq_false_iff_ne.mpr h
    simp [hb, h]

/-- Claim C4: every property in an update payload comes from an allow-listed
mutable field; the remote properties mapped from `uid`, `name` and
`date_added` never appear, whatever the record holds. -/
theorem update_page_allowlist (page_id : String) (data : Record) (np : String)
    (pv : PropValue)
    (h : (np, pv) ∈ (update_page page_id data).properties) :
    np ∈ ["Status", "Platform", "Socials", "Reviewer Name", "Review Date",
      "Next Follow Up"] ∧ np ∉ ["UID", "Name", "Date Added"] := by
  have h2 : (np, pv) ∈ update_fields.foldl (updateStep data) [] := h
  rw [mem_foldl_updateStep] at h2
  rcases h2 with h2 | ⟨f, hf, rv, hrv, hp⟩
  · exact absurd h2 (List.not_mem_nil _)
  rw [mem_format_properties] at hp
  obtain ⟨e, he, v, hv, hg, hpeq⟩ := hp
  obtain ⟨n1, d1, p1⟩ := e
  have hnp : np = n1 := congrArg Prod.fst hpeq
  subst hnp
  have hv2 : pyGet [(f, rv)] d1 = some v := hv
  rw [pyGet_singleton] at hv2
  by_cases hef : d1 = f
  · subst hef
    simp only [update_fields, List.mem_cons, List.not_mem_nil, or_false] at hf
    simp only [property_mapping, List.mem_cons, List.not_mem_nil, or_false,
      Prod.mk.injEq] at he
    rcases he with he | he | he | he | he | he | he | he | he <;>
      obtain ⟨rfl, rfl, rfl⟩ := he <;>
      first
        | exact absurd hf (by decide)
        | decide
  · rw [if_neg hef] at hv2
    exact Option.noConfusion hv2

/-- Witness for `update_page_allowlist` at a concrete page id and record. -/
theorem update_page_allowlist_witness :
    (("Status", PropValue.select "Active") ∈
      (update_page "page-1" [("status", some "Active"), ("uid", some "123")]).properties) ∧
    ("Status" ∈ ["Status", "Platform", "Socials", "Reviewer Name",
        "Review Date", "Next Follow Up"] ∧
      "Status" ∉ ["UID", "Name", "Date Added"]) :=
  ⟨by decide,
   update_page_allowlist "page-1" [("status", some "Active"), ("uid", some "123")]
     "Status" (PropValue.select "Active") (by decide)⟩

/-- Remote call issued during a sync run: the existence query of
`check_if_exists`, the POST of `create_page`, or the PATCH of `update_page`. -/
inductive RemoteCall
  | query (uid : String)
  | createPage (record : Record)
  | updatePage (page_id : String) (record : Record)
deriving DecidableEq, Repr

/-- Behavior of the remote API for one run: `check_if_exists` yields the
optional matching page id (`results[0].id` or `None`), and the mutating calls
yield unit; an `Except.error` is a raised requests exception carrying its
message. -/
structure RemoteEnv where
  check_if_exists : String → Except String (Option String)
  create_page : Record → Except String Unit
  update_page : String → Record → Except String Unit

/-- Terminal outcome of one iteration of the `sync_from_database` loop. -/
inductive Outcome
  | created
  | updated
  | errored (msg : String)
deriving DecidableEq, Repr

/-- Embeds one iteration of the loop of `sync_from_database`
(lines 219-252): reject a falsy uid with "Missing UID" and no remote call;
otherwise check existence, then update when the returned page id is truthy
and create otherwise; any raised exception becomes an errored outcome. The
second component lists the remote calls the iteration performed. -/
def processRecord (env : RemoteEnv) (record : Record) :
    Outcome × List RemoteCall :=
  match pyGet record "uid" with
  | none => (.errored "Missing UID", [])
  | some uid =>
    if uid == "" then (.errored "Missing UID", [])
    else
      match env.check_if_exists uid with
      | .error e => (.errored e, [.query uid])
      | .ok existing =>
        if pyTruthy existing then
          match env.update_page (existing.getD "") record with
          | .error e =>
            (.errored e, [.query uid, .updatePage (existing.getD "") record])
          | .ok _ =>
            (.updated, [.query uid, .updatePage (existing.getD "") record])
        else
          match env.create_page record with
          | .error e => (.errored e, [.query uid, .createPage record])
          | .ok _ => (.created, [.query uid, .createPage record])

/-- Sync summary dict built by `sync_from_database` (lines 212-217). -/
structure Summary where
  created : Nat
  updated : Nat
  errors : Nat
  error_details : List (Record × String)
deriving DecidableEq, Repr

/-- Initial summary: all counters zero, no error details. -/
def initSummary : Summary := ⟨0, 0, 0, []⟩

/-- Applies the outcome of one record to the summary: bump exactly one
counter, and append `{record, error}` to `error_details` on an error. -/
def applyOutcome (s : Summary) (record : Record) : Outcome → Summary
  | .created => { s with created := s.created + 1 }
  | .updated => { s with updated := s.updated + 1 }
  | .errored msg =>
    { s with errors := s.errors + 1,
             error_details := s.error_details ++ [(record, msg)] }

/-- One loop iteration of `sync_from_database` acting on the accumulated
summary and call trace. -/
def syncStep (env : RemoteEnv) (acc : Summary × List RemoteCall)
    (record : Record) : Summary × List RemoteCall :=
  (applyOutcome acc.1 record (processRecord env record).1,
   acc.2 ++ (processRecord env record).2)

/-- Embeds `NotionDatabaseSync.sync_from_database` (lines 202-257): fold the
loop body over the record list, also returning the trace of remote calls the
run performed. -/
def sync_from_database (env : RemoteEnv) (records : List Record) :
    Summary × List RemoteCall :=
  records.foldl (syncStep env) (initSummary, [])

/-- Pointwise combination of two summaries: counters add, error details
concatenate. -/
def mergeSummary (a b : Summary) : Summary :=
  ⟨a.created + b.created, a.updated + b.updated, a.errors + b.errors,
   a.error_details ++ b.error_details⟩

lemma applyOutcome_merge (s : Summary) (record : Record) (o : Outcome) :
    applyOutcome s record o = mergeSummary s (applyOutcome initSummary record o) := by
  cases o <;> simp [applyOutcome, initSummary, mergeSummary]

lemma mergeSummary_init (s : Summary) : mergeSummary s initSummary = s := by
  simp [mergeSummary, initSummary]

lemma mergeSummary_assoc (a b c : Summary) :
    mergeSummary (mergeSummary a b) c = mergeSummary a (mergeSummary b c) := by
  simp [mergeSummary, Nat.add_assoc]

/-- Accumulator shift: folding the loop from any starting accumulator equals
the fresh run combined on the left with that accumulator. -/
lemma foldl_syncStep_shift (env : RemoteEnv) (records : List Record)
    (s : Summary) (c : List RemoteCall) :
    records.foldl (syncStep env) (s, c) =
      (mergeSummary s (sync_from_database env records).1,
       c ++ (sync_from_database env records).2) := by
  induction records generalizing s c with
  | nil => simp [sync_from_database, mergeSummary_init]
  | cons r rs ih =>
    rw [List.foldl_cons, ih]
    have hrhs : sync_from_database env (r :: rs) =
        (mergeSummary (applyOutcome initSummary r (processRecord env r).1)
           (sync_from_database env rs).1,
         (processRecord env r).2 ++ (sync_from_database env rs).2) := by
      show (r :: rs).foldl (syncStep env) (initSummary, []) = _
      rw [List.foldl_cons, ih]
      simp [syncStep]
    rw [hrhs, Prod.mk.injEq]
    constructor
    · show mergeSummary (applyOutcome s r (processRecord env r).1)
          (sync_from_database env rs).1 = _
      rw [applyOutcome_merge s, mergeSummary_assoc]
    · show (c ++ (processRecord env r).2) ++ (sync_from_database env rs).2 = _
      rw [List.append_assoc]

/-- Decomposition of a run over an appended record list. -/
lemma sync_from_database_append (env : RemoteEnv) (rs1 rs2 : List Record) :
    sync_from_database env (rs1 ++ rs2) =
      (mergeSummary (sync_from_database env rs1).1 (sync_from_database env rs2).1,
       (sync_from_database env rs1).2 ++ (sync_from_database env rs2).2) := by
  rw [sync_from_database, List.foldl_append]
  have h1 : rs1.foldl (syncStep env) (initSummary, []) =
      sync_from_database env rs1 := rfl
  rw [h1]
  obtain ⟨s1, c1⟩ := sync_from_database env rs1
  exact foldl_syncStep_shift env rs2 s1 c1

/-- A run on a single record applies its outcome to the fresh summary. -/
lemma sync_from_database_singleton (env : RemoteEnv) (r : Record) :
    sync_from_database env [r] =
      (applyOutcome initSummary r (processRecord env r).1,
       (processRecord env r).2) := by
  simp [sync_from_database, syncStep]

/-- Cons form of a run, derived from the accumulator shift. -/
lemma sync_from_database_cons (env : RemoteEnv) (r : Record) (rs : List Record) :
    sync_from_database env (r :: rs) =
      (mergeSummary (applyOutcome initSummary r (processRecord env r).1)
         (sync_from_database env rs).1,
       (processRecord env r).2 ++ (sync_from_database env rs).2) := by
  show (r :: rs).foldl (syncStep env) (initSummary, []) = _
  rw [List.foldl_cons, foldl_syncStep_shift]
  simp [syncStep]

/-- Claim C1: each record bumps exactly one of the three counters by one, so
the counters partition the input and `error_details` matches `errors`. -/
theorem sync_counts_partition (env : RemoteEnv) (records : List Record) :
    (sync_from_database env records).1.created +
      (sync_from_database env records).1.updated +
      (sync_from_database env records).1.errors = records.length ∧
    (sync_from_database env records).1.error_details.length =
      (sync_from_database env records).1.errors := by
  induction records with
  | nil =>
    constructor <;> rfl
  | cons r rs ih =>
    rw [sync_from_database_cons]
    obtain ⟨ih1, ih2⟩ := ih
    cases hpr : (processRecord env r).1 <;>
      simp [applyOutcome, mergeSummary, initSummary] <;> omega

/-- Splitting a run around one record whose processing ends in an error:
the error counter gains one, the error message is appended between the two
halves, the other counters are untouched, and the trace is the two halves
around the calls of the failing record. -/
lemma sync_decompose_errored (env : RemoteEnv) (rs1 rs2 : List Record)
    (record : Record) (msg : String)
    (hp : (processRecord env record).1 = Outcome.errored msg) :
    sync_from_database env (rs1 ++ record :: rs2) =
      (⟨(sync_from_database env rs1).1.created +
          (sync_from_database env rs2).1.created,
        (sync_from_database env rs1).1.updated +
          (sync_from_database env rs2).1.updated,
        (sync_from_database env rs1).1.errors + 1 +
          (sync_from_database env rs2).1.errors,
        (sync_from_database env rs1).1.error_details ++ [(record, msg)] ++
          (sync_from_database env rs2).1.error_details⟩,
       (sync_from_database env rs1).2 ++ (processRecord env record).2 ++
         (sync_from_database env rs2).2) := by
  have hsplit : rs1 ++ record :: rs2 = rs1 ++ ([record] ++ rs2) := rfl
  rw [hsplit, sync_from_database_append, sync_from_database_append,
    sync_from_database_singleton, hp]
  simp [applyOutcome, mergeSummary, Nat.add_assoc, initSummary]

/-- Claim C5: a record whose uid is null or absent causes no remote call, one
error increment with detail "Missing UID", and leaves created and updated
untouched while the rest of the batch is processed normally. -/
theorem missing_uid_no_remote_calls (env : RemoteEnv) (rs1 rs2 : List Record)
    (record : Record) (h : pyGet record "uid" = none) :
    sync_from_database env (rs1 ++ record :: rs2) =
      (⟨(sync_from_database env rs1).1.created +
          (sync_from_database env rs2).1.created,
        (sync_from_database env rs1).1.updated +
          (sync_from_database env rs2).1.updated,
        (sync_from_database env rs1).1.errors + 1 +
          (sync_from_database env rs2).1.errors,
        (sync_from_database env rs1).1.error_details ++
          [(record, "Missing UID")] ++
          (sync_from_database env rs2).1.error_details⟩,
       (sync_from_database env rs1).2 ++ (sync_from_database env rs2).2) := by
  have hp : processRecord env record = (.errored "Missing UID", []) := by
    unfold processRecord
    rw [h]
  rw [sync_decompose_errored env rs1 rs2 record "Missing UID" (by rw [hp]),
    hp]
  simp

/-- Remote environment where every call succeeds and no page exists yet. -/
def okEnv : RemoteEnv :=
  ⟨fun _ => Except.ok none, fun _ => Except.ok (), fun _ _ => Except.ok ()⟩

/-- Witness for `missing_uid_no_remote_calls` on a one-record batch without
a uid. -/
theorem missing_uid_no_remote_calls_witness :
    sync_from_database okEnv [[("name", some "X")]] =
      (⟨0, 0, 1, [([("name", some "X")], "Missing UID")]⟩, []) := by
  have h := missing_uid_no_remote_calls okEnv [] []
    [("name", some "X")] (by decide)
  simpa [sync_from_database, initSummary] using h

/-- Claim C6: when the existence check, create or update raises on a record,
the error counter gains exactly one, the record and message are appended to
the details, and the surrounding records are processed exactly as without
the failure. -/
theorem errored_record_isolation (env : RemoteEnv) (rs1 rs2 : List Record)
    (record : Record) (uid msg : String)
    (h1 : pyGet record "uid" = some uid) (h2 : uid ≠ "")
    (h3 : (processRecord env record).1 = Outcome.errored msg) :
    sync_from_database env (rs1 ++ record :: rs2) =
      (⟨(sync_from_database env rs1).1.created +
          (sync_from_database env rs2).1.created,
        (sync_from_database env rs1).1.updated +
          (sync_from_database env rs2).1.updated,
        (sync_from_database env rs1).1.errors + 1 +
          (sync_from_database env rs2).1.errors,
        (sync_from_database env rs1).1.error_details ++ [(record, msg)] ++
          (sync_from_database env rs2).1.error_details⟩,
       (sync_from_database env rs1).2 ++ (processRecord env record).2 ++
         (sync_from_database env rs2).2) :=
  sync_decompose_errored env rs1 rs2 record msg h3

/-- Remote environment whose existence check raises an HTTP error. -/
def failingCheckEnv : RemoteEnv :=
  ⟨fun _ => Except.error "HTTP 500", fun _ => Except.ok (),
   fun _ _ => Except.ok ()⟩

/-- Witness for `errored_record_isolation`: a failing existence check between
two well-formed records still yields the middle error detail. -/
theorem errored_record_isolation_witness :
    pyGet [("uid", some "u1")] "uid" = some "u1" ∧
    sync_from_database failingCheckEnv [[("uid", some "u1")]] =
      (⟨0, 0, 1, [([("uid", some "u1")], "HTTP 500")]⟩,
       [RemoteCall.query "u1"]) := by
  refine ⟨by decide, ?_⟩
  have h := errored_record_isolation failingCheckEnv [] []
    [("uid", some "u1")] "u1" "HTTP 500" (by decide) (by decide) (by decide)
  simpa [sync_from_database, initSummary, processRecord, pyGet, List.lookup,
    failingCheckEnv] using h

/-- Claim C10: a record carrying an empty-string uid is rejected exactly like
a record with a missing uid: no remote call, one error with message
"Missing UID"; the rejection test is Python falsiness of the uid. -/
theorem empty_uid_rejected (env : RemoteEnv) (rs1 rs2 : List Record)
    (record : Record) (h : pyGet record "uid" = some "") :
    processRecord env record = (Outcome.errored "Missing UID", []) ∧
    sync_from_database env (rs1 ++ record :: rs2) =
      (⟨(sync_from_database env rs1).1.created +
          (sync_from_database env rs2).1.created,
        (sync_from_database env rs1).1.updated +
          (sync_from_database env rs2).1.updated,
        (sync_from_database env rs1).1.errors + 1 +
          (sync_from_database env rs2).1.errors,
        (sync_from_database env rs1).1.error_details ++
          [(record, "Missing UID")] ++
          (sync_from_database env rs2).1.error_details⟩,
       (sync_from_database env rs1).2 ++ (sync_from_database env rs2).2) := by
  have hp : processRecord env record = (.errored "Missing UID", []) := by
    unfold processRecord
    rw [h]
    rfl
  refine ⟨hp, ?_⟩
  rw [sync_decompose_errored env rs1 rs2 record "Missing UID" (by rw [hp]),
    hp]
  simp

/-- Witness for `empty_uid_rejected` on a record whose uid is present but
empty. -/
theorem empty_uid_rejected_witness :
    processRecord okEnv [("uid", some ""), ("name", some "X")] =
      (Outcome.errored "Missing UID", []) ∧
    sync_from_database okEnv [[("uid", some ""), ("name", some "X")]] =
      (⟨0, 0, 1, [([("uid", some ""), ("name", some "X")], "Missing UID")]⟩,
       []) := by
  have h := empty_uid_rejected okEnv [] []
    [("uid", some ""), ("name", some "X")] (by decide)
  refine ⟨h.1, ?_⟩
  simpa [sync_from_database, initSummary] using h.2

/-- Backend connector variants of `DatabaseConnector.get_connector`. -/
inductive ConnectorType
  | postgresql
  | mysql
  | mongodb
  | sqlite
deriving DecidableEq, Repr

/-- The dispatch dict of `get_connector` (lines 280-285). -/
def connectors : List (String × ConnectorType) :=
  [("postgresql", .postgresql), ("mysql", .mysql), ("mongodb", .mongodb),
   ("sqlite", .sqlite)]

/-- Embeds `DatabaseConnector.get_connector` (lines 267-291). The first
argument is the `db_type` parameter, the second the `DB_TYPE` environment
variable; `db_type or os.getenv("DB_TYPE", "postgresql")` keeps a truthy
argument and otherwise falls back to the environment value or the default.
An unknown resolved name raises `ValueError`. -/
def get_connector (db_type : Option String) (env_db_type : Option String) :
    Except String ConnectorType :=
  let dbt := if pyTruthy db_type then db_type.getD ""
    else env_db_type.getD "postgresql"
  match List.lookup dbt connectors with
  | some ct => Except.ok ct
  | none => Except.error ("Unsupported database type: " ++ dbt)

/-- Counterexample to claim C7 as stated: the empty string is a selector
value outside the recognized set, yet with no environment override the
factory returns the postgresql connector instead of raising, because the
Python `or` fallback treats a falsy selector as absent. -/
theorem get_connector_empty_selector_cex :
    ("" ∉ ["postgresql", "mysql", "mongodb", "sqlite"]) ∧
    get_connector (some "") none = Except.ok ConnectorType.postgresql := by
  constructor
  · decide
  · rfl

/-- Claim C7 as amended: each recognized selector yields its variant
regardless of the environment, no selector with no environment override
defaults to postgresql, and every other non-empty selector raises a
configuration error (an empty selector instead falls back to the
environment or default). -/
theorem get_connector_dispatch :
    (∀ e, get_connector (some "postgresql") e =
      Except.ok ConnectorType.postgresql) ∧
    (∀ e, get_connector (some "mysql") e = Except.ok ConnectorType.mysql) ∧
    (∀ e, get_connector (some "mongodb") e = Except.ok ConnectorType.mongodb) ∧
    (∀ e, get_connector (some "sqlite") e = Except.ok ConnectorType.sqlite) ∧
    get_connector none none = Except.ok ConnectorType.postgresql ∧
    (∀ s, s ≠ "" → s ∉ ["postgresql", "mysql", "mongodb", "sqlite"] →
      ∀ e, get_connector (some s) e =
        Except.error ("Unsupported database type: " ++ s)) := by
  refine ⟨fun e => rfl, fun e => rfl, fun e => rfl, fun e => rfl, rfl, ?_⟩
  intro s hne hnotin e
  simp only [List.mem_cons, List.not_mem_nil, or_false, not_or] at hnotin
  obtain ⟨h1, h2, h3, h4⟩ := hnotin
  have ht : pyTruthy (some s) = true := by simp [pyTruthy, hne]
  have hl : List.lookup s connectors = none := by
    rw [List.lookup_eq_none_iff]
    intro p hp
    simp only [connectors, List.mem_cons, List.not_mem_nil, or_false] at hp
    rcases hp with rfl | rfl | rfl | rfl <;> simpa using ‹_›
  simp [get_connector, ht, hl]

/-- Witness for `get_connector_dispatch`: an unrecognized non-empty selector
raises, and an explicit recognized selector wins over the environment. -/
theorem get_connector_dispatch_witness :
    get_connector (some "oracle") none =
      Except.error ("Unsupported database type: " ++ "oracle") ∧
    get_connector (some "mysql") (some "postgresql") =
      Except.ok ConnectorType.mysql :=
  ⟨get_connector_dispatch.2.2.2.2.2 "oracle" (by decide) (by decide) none,
   get_connector_dispatch.2.1 (some "postgresql")⟩

/-- Availability of the optional backend driver libraries at import time. -/
structure DriverEnv where
  psycopg2_available : Bool
  mysql_connector_available : Bool
  pymongo_available : Bool
  sqlite3_available : Bool
deriving DecidableEq, Repr

/-- Embeds the four `fetch_records` implementations (lines 305-339, 346-379,
386-411, 418-443) at the granularity the driver-availability claims need:
the connection, query execution and row conversion are abstracted into the
`db` map from variant to the records its backing store yields. The first
three variants guard their driver import with try/except, log the
`logger.error` line (second component) and return an empty list; the sqlite
variant imports `sqlite3` unguarded, so an unavailable module propagates as
an ImportError. -/
def fetch_records (driver : DriverEnv) (db : ConnectorType → List Record) :
    ConnectorType → Except String (List Record) × List String
  | .postgresql =>
    if driver.psycopg2_available then (Except.ok (db .postgresql), [])
    else (Except.ok [],
      ["psycopg2 not installed. Run: pip install psycopg2-binary"])
  | .mysql =>
    if driver.mysql_connector_available then (Except.ok (db .mysql), [])
    else (Except.ok [],
      ["mysql-connector-python not installed. Run: pip install mysql-connector-python"])
  | .mongodb =>
    if driver.pymongo_available then (Except.ok (db .mongodb), [])
    else (Except.ok [], ["pymongo not installed. Run: pip install pymongo"])
  | .sqlite =>
    if driver.sqlite3_available then (Except.ok (db .sqlite), [])
    else (Except.error "No module named sqlite3", [])

/-- Counterexample to claim C8 as stated: for the sqlite variant an
unavailable driver module makes `fetch_records` raise instead of returning
an empty sequence, because its import is not wrapped in try/except. -/
theorem fetch_records_driver_cex :
    (fetch_records ⟨false, false, false, false⟩ (fun _ => [])
      ConnectorType.sqlite).1 = Except.error "No module named sqlite3" ∧
    (Except.error "No module named sqlite3" : Except String (List Record)) ≠
      Except.ok [] := by
  refine ⟨rfl, fun hc => ?_⟩
  exact Except.noConfusion hc

/-- Claim C8 as amended: when its driver library is unavailable, each of the
postgresql, mysql and mongodb connectors logs the condition and returns an
empty sequence; the sqlite connector instead propagates the import error. -/
theorem fetch_records_driver_unavailable (driver : DriverEnv)
    (db : ConnectorType → List Record) :
    (driver.psycopg2_available = false →
      fetch_records driver db ConnectorType.postgresql =
        (Except.ok [],
         ["psycopg2 not installed. Run: pip install psycopg2-binary"])) ∧
    (driver.mysql_connector_available = false →
      fetch_records driver db ConnectorType.mysql =
        (Except.ok [],
         ["mysql-connector-python not installed. Run: pip install mysql-connector-python"])) ∧
    (driver.pymongo_available = false →
      fetch_records driver db ConnectorType.mongodb =
        (Except.ok [], ["pymongo not installed. Run: pip install pymongo"])) ∧
    (driver.sqlite3_available = false →
      fetch_records driver db ConnectorType.sqlite =
        (Except.error "No module named sqlite3", [])) := by
  refine ⟨?_, ?_, ?_, ?_⟩ <;> intro h <;> simp [fetch_records, h]

/-- Witness for `fetch_records_driver_unavailable` with every driver
missing. -/
theorem fetch_records_driver_unavailable_witness :
    fetch_records ⟨false, false, false, false⟩ (fun _ => [])
        ConnectorType.postgresql =
      (Except.ok [],
       ["psycopg2 not installed. Run: pip install psycopg2-binary"]) ∧
    fetch_records ⟨false, false, false, false⟩ (fun _ => [])
        ConnectorType.sqlite =
      (Except.error "No module named sqlite3", []) :=
  ⟨(fetch_records_driver_unavailable ⟨false, false, false, false⟩
      (fun _ => [])).1 rfl,
   (fetch_records_driver_unavailable ⟨false, false, false, false⟩
      (fun _ => [])).2.2.2 rfl⟩

/-- Environment of one `main` run: whether `NotionDatabaseSync.__init__`
finds its token and database id, the `DB_TYPE` environment variable, driver
availability, the backing stores and the remote API behavior. -/
structure MainEnv where
  init_ok : Bool
  db_type : Option String
  driver : DriverEnv
  backend_db : ConnectorType → List Record
  remote : RemoteEnv

/-- Observable outcome of a `main` run: process exit code, remote call
trace, whether the "No records to sync" early return was taken, and the
sync summary when the sync loop ran. -/
structure MainResult where
  exit_code : Nat
  calls : List RemoteCall
  no_records_path : Bool
  summary : Option Summary
deriving DecidableEq, Repr

/-- Embeds `main` (lines 446-494): initialize the client, resolve the
connector, fetch records, return early on an empty set, otherwise sync and
exit 1 exactly when the summary counts errors; any raised exception reaches
the top-level handler and exits 1. -/
def main (env : MainEnv) : MainResult :=
  if env.init_ok then
    match get_connector (some (env.db_type.getD "postgresql")) env.db_type with
    | .error _ => ⟨1, [], false, none⟩
    | .ok ct =>
      match (fetch_records env.driver env.backend_db ct).1 with
      | .error _ => ⟨1, [], false, none⟩
      | .ok records =>
        if records.isEmpty then ⟨0, [], true, none⟩
        else
          let result := sync_from_database env.remote records
          ⟨if result.1.errors > 0 then 1 else 0, result.2, false,
           some result.1⟩
  else ⟨1, [], false, none⟩

/-- An error reaches the top-level except handler of `main`: failed client
initialization, an unrecognized backend, or a fetch that raises. -/
def topLevelError (env : MainEnv) : Bool :=
  !env.init_ok ||
    (match get_connector (some (env.db_type.getD "postgresql"))
        env.db_type with
     | .error _ => true
     | .ok ct =>
       match (fetch_records env.driver env.backend_db ct).1 with
       | .error _ => true
       | .ok _ => false)

/-- Claim C9: the process exits non-zero exactly when a top-level error
occurred or the summary counted a failed record, and an empty fetched
record set makes zero remote calls, takes the "No records to sync" path and
exits zero. -/
theorem main_exit_spec (env : MainEnv) :
    ((main env).exit_code ≠ 0 ↔
      topLevelError env = true ∨
        ∃ s, (main env).summary = some s ∧ 0 < s.errors) ∧
    (∀ ct, env.init_ok = true →
      get_connector (some (env.db_type.getD "postgresql")) env.db_type =
        Except.ok ct →
      (fetch_records env.driver env.backend_db ct).1 = Except.ok [] →
      main env = ⟨0, [], true, none⟩) := by
  constructor
  · unfold main topLevelError
    cases hinit : env.init_ok with
    | false => simp
    | true =>
      cases hconn : get_connector (some (env.db_type.getD "postgresql"))
          env.db_type with
      | error e => simp [hconn]
      | ok ct =>
        cases hfetch : (fetch_records env.driver env.backend_db ct).1 with
        | error e => simp [hconn, hfetch]
        | ok records =>
          cases hrec : records.isEmpty with
          | true => simp [hconn, hfetch, hrec]
          | false =>
            by_cases herr :
              0 < (sync_from_database env.remote records).1.errors
            · simp [hconn, hfetch, hrec, herr]
            · simp [hconn, hfetch, hrec, herr]
  · intro ct hinit hconn hfetch
    simp [main, hinit, hconn, hfetch]

/-- Witness for `main_exit_spec`: a run whose backend yields no records
exits 0 on the no-records path with no remote call. -/
theorem main_exit_spec_witness :
    main ⟨true, none, ⟨true, true, true, true⟩, fun _ => [], okEnv⟩ =
      ⟨0, [], true, none⟩ :=
  (main_exit_spec ⟨true, none, ⟨true, true, true, true⟩, fun _ => [], okEnv⟩).2
    ConnectorType.postgresql rfl rfl rfl

end Notionsync
